import Mathlib

/-!
Verification of the tap/progression engine of the Microappv1 backend
(`src/models/Quest.js`, which concatenates the Quest schema, the quest
routes, and the user controller).

Conventions of the embedding:
* Timestamps are milliseconds, modelled as `Nat` (`Date` comparison in JS
  compares millisecond values; `null` timestamps are `Option.none`).
* Mongoose documents are records; the persisted database is a `Store` of
  association lists keyed by `_id`.  In-memory mutation of a loaded
  document only reaches the store at an explicit `save`.
* A JS `throw` that is observable to a caller is an `Except.error`.
-/

namespace Microapp

/-- Per-user persisted state (the `User` model fields read or written by
the controller in `src/models/Quest.js`). -/
structure User where
  telegramId : Nat
  username : String
  xp : Nat
  compute : Nat
  totalTaps : Nat
  computePower : Nat
  gpuLevel : Nat
  cooldownEndTime : Option Nat
  boostCount : Nat
  lastTapTime : Option Nat
  lastBoostTime : Option Nat
  completedQuests : List Nat
  referredBy : Option Nat
  level : Nat
  deriving Repr, DecidableEq

/-- A quest document (`questSchema` plus the optional fields the routes
and the verifier read: `action`, `targetId`, `requirement`). -/
structure Quest where
  title : String
  description : String
  xpReward : Nat
  type : String
  action : Option String
  targetId : Option String
  requirement : Option Nat
  expiresAt : Nat
  deriving Repr, DecidableEq

/-- The persisted database: users keyed by `_id`, referral edges keyed by
`(referrer, referred)` carrying `totalRewardsDistributed`, and quests
keyed by `_id`. -/
structure Store where
  users : List (Nat × User)
  referrals : List ((Nat × Nat) × Nat)
  quests : List (Nat × Quest)
  deriving Repr, DecidableEq

/-- `User.findById(id)` / `findOne({_id: id})`. -/
def findUser (s : Store) (id : Nat) : Option User :=
  (s.users.find? (fun p => p.1 == id)).map (·.2)

/-- `User.findOne({telegramId})`. -/
def findUserByTelegramId (s : Store) (tid : Nat) : Option (Nat × User) :=
  s.users.find? (fun p => p.2.telegramId == tid)

/-- `user.save()`: persist the in-memory document under its `_id`. -/
def saveUser (s : Store) (id : Nat) (u : User) : Store :=
  { s with users := s.users.map (fun p => if p.1 == id then (id, u) else p) }

/-- `Quest.findById(questId)`. -/
def findQuest (s : Store) (id : Nat) : Option Quest :=
  (s.quests.find? (fun p => p.1 == id)).map (·.2)

/-! ## The tap state mutation (controller `tap`, lines 438–459) -/

/-- The in-memory mutation a successful tap performs on the user document,
exactly in source order: increment `totalTaps`; `xpGained = computePower`;
add it to `xp` and `compute`; record `lastTapTime`; start a 10 s cooldown
when `totalTaps % 500 === 0`; GPU upgrade when
`xp >= (gpuLevel + 1) * 25000`; increment `boostCount` when
`xp % 2000 === 0`. -/
def tapUser (now : Nat) (u : User) : User :=
  let u := { u with totalTaps := u.totalTaps + 1 }
  let xpGained := u.computePower
  let u := { u with
    xp := u.xp + xpGained
    compute := u.compute + xpGained
    lastTapTime := some now }
  let u :=
    if u.totalTaps % 500 == 0 then
      { u with cooldownEndTime := some (now + 10 * 1000) }
    else u
  let u :=
    if u.xp ≥ (u.gpuLevel + 1) * 25000 then
      { u with gpuLevel := u.gpuLevel + 1, computePower := u.computePower + 1 }
    else u
  let u :=
    if u.xp % 2000 == 0 then
      { u with boostCount := u.boostCount + 1 }
    else u
  u

/-- The cooldown guard of `tap`: the request is rejected when
`user.cooldownEndTime` is set (non-null, hence truthy) and
`now < user.cooldownEndTime`. -/
def coolingDown (now : Nat) (u : User) : Bool :=
  match u.cooldownEndTime with
  | some t => now < t
  | none => false

/-- Outcome of the per-user part of a tap attempt. -/
inductive TapAttempt where
  | cooldown (cooldownEndTime : Nat)
  | success (u : User)
  deriving Repr, DecidableEq

/-- A single tap attempt against one user document: the cooldown guard
(`if (user.cooldownEndTime && now < user.cooldownEndTime)`), then the
mutation `tapUser`. -/
def tapAttempt (now : Nat) (u : User) : TapAttempt :=
  match u.cooldownEndTime with
  | some t => if now < t then .cooldown t else .success (tapUser now u)
  | none => .success (tapUser now u)

/-- A sequence of tap attempts at the given times; `none` as soon as one
attempt is rejected by the cooldown guard (so `some` means every tap in
the sequence succeeded). -/
def tapSeq (u : User) : List Nat → Option User
  | [] => some u
  | t :: ts =>
    match tapAttempt t u with
    | .cooldown _ => none
    | .success u' => tapSeq u' ts

/-! ## Referral propagation (`distributeReferralXP`, controller lines 392–420) -/

/-- `tierPercentages = [0.1, 0.05, 0.025]`, in per-mille, so that
`Math.floor(xpGained * tierPercentages[currentTier - 1])` becomes exact
natural division by 1000 (for the integer ranges involved the IEEE
products `x * 0.1`, `x * 0.05`, `x * 0.025` round to values whose floors
agree with the exact rational products). -/
def tierPerMille : List Nat := [100, 50, 25]

/-- `Math.floor(xpGained * tierPercentages[tier - 1])`. -/
def tierReward (xpGained tier : Nat) : Nat :=
  xpGained * (tierPerMille.getD (tier - 1) 0) / 1000

/-- The `Referral.findOneAndUpdate({referrer, referred}, {$inc:
{totalRewardsDistributed: referralXP}})` step of `distributeReferralXP`.
In the controller the identifier `Referral` is never bound: the file's
require block imports only `User`, `Leaderboard`, `verifyTelegramWebAppData`,
`logger` and `calculateReferralReward`, and no `Referral` model is in
scope.  Evaluating `Referral.findOneAndUpdate` therefore throws a
`ReferenceError` at run time; the step is embedded as the always-throwing
operation, the thrown error carrying the store as it stood at the throw
(a `catch` does not roll back earlier saves). -/
def referralFindOneAndUpdate (s : Store) (_referrerId _referredId _delta : Nat) :
    Except Store Store :=
  .error s

/-- The `while (currentReferrer && currentTier <= 3)` loop of
`distributeReferralXP`, carrying the loaded referrer document
(`curId`, `cur`) and `currentTier` exactly as in the source; the
structurally decreasing `fuel` is the number of tiers still allowed,
`4 - currentTier`, so the guard `currentTier <= 3` is `fuel > 0`.  Body
in source order: compute
`referralXP = Math.floor(xpGained * tierPercentages[currentTier - 1])`;
add it to the in-memory document's `xp`; update the Referral edge
`{referrer: currentReferrer._id, referred: user._id}` (the `referred`
key is the tapping user at every tier); save the referrer; load the next
referrer by `currentReferrer.referredBy`. -/
def referralLoop (origId xpGained : Nat) :
    Nat → Nat → Store → Option (Nat × User) → Except Store Store
  | _, _, s, none => .ok s
  | 0, _, s, some _ => .ok s
  | fuel + 1, tier, s, some (curId, cur) =>
    let referralXP := tierReward xpGained tier
    let cur := { cur with xp := cur.xp + referralXP }
    match referralFindOneAndUpdate s curId origId referralXP with
    | .error s' => .error s'
    | .ok s' =>
      let s'' := saveUser s' curId cur
      let next := cur.referredBy.bind fun rid => (findUser s'' rid).map ((rid, ·))
      referralLoop origId xpGained fuel (tier + 1) s'' next

/-- `distributeReferralXP(userId, xpGained)`: load the user with
`referredBy` populated; return if the user is missing, its `referredBy`
is null, or the populated referrer document is missing; otherwise run the
tier loop from `currentTier = 1` (three tiers of fuel).  The whole body
is wrapped in `try/catch` whose catch only logs, so a throw leaves the
store as it stood at the moment of the throw. -/
def distributeReferralXP (s : Store) (userId xpGained : Nat) : Store :=
  match findUser s userId with
  | none => s
  | some u =>
    match u.referredBy with
    | none => s
    | some rid =>
      match findUser s rid with
      | none => s
      | some refUser =>
        match referralLoop userId xpGained 3 1 s (some (rid, refUser)) with
        | .ok s' => s'
        | .error s' => s'

/-! ## The full tap handler (controller lines 422–496) -/

/-- The snapshot of the user returned by a successful tap
(`res.json({message, user: {...}})`). -/
structure UserSnapshot where
  xp : Nat
  compute : Nat
  totalTaps : Nat
  computePower : Nat
  gpuLevel : Nat
  cooldownEndTime : Option Nat
  boostCount : Nat
  deriving Repr, DecidableEq

/-- The seven fields `tap` returns on success. -/
def User.snapshot (u : User) : UserSnapshot :=
  ⟨u.xp, u.compute, u.totalTaps, u.computePower, u.gpuLevel,
    u.cooldownEndTime, u.boostCount⟩

/-- `new Date(2000, 0, 1)` — the fixed all-time sentinel period start, in
epoch milliseconds. -/
def allTimeDate : Nat := 946684800000

/-- The environment a tap runs in.  `lbUpdate` is the
`Leaderboard.updateEntry(window, periodStart, userId, username, score)`
collaborator — modelled from the spec: the Leaderboard model file is not
among the sources, and §4.3/§7 describe `updateEntry` as an upsert whose
failure is possible (a rejected promise, `Except.error`).  `todayStart`
and `weekStart` are the calendar period boundaries the handler computes
from the clock (local-midnight arithmetic abstracted as inputs). -/
structure TapEnv where
  lbUpdate : String → Nat → Nat → String → Nat → Except Unit Unit
  todayStart : Nat
  weekStart : Nat

/-- Possible HTTP-level outcomes of `tap`. -/
inductive TapResponse where
  | notFound
  | cooldown (cooldownEndTime : Nat)
  | success (snapshot : UserSnapshot)
  | serverError
  deriving Repr, DecidableEq

/-- The part of `tap` after the cooldown guard passes: mutate the user
(`tapUser`), save, distribute referral XP with the tap's `xpGained`
(the pre-upgrade `computePower`), then the three `Leaderboard.updateEntry`
calls under `Promise.all` — awaited inside `tap`'s `try` with no catch of
their own, so one rejection sends the handler to the outer catch
(`res.status(500)`), after the user document was already saved. -/
def tapPersist (env : TapEnv) (now : Nat) (s : Store) (uid : Nat) (u : User) :
    TapResponse × Store :=
  let u' := tapUser now u
  let xpGained := u.computePower
  let s := saveUser s uid u'
  let s := distributeReferralXP s uid xpGained
  let r1 := env.lbUpdate "daily" env.todayStart uid u'.username u'.compute
  let r2 := env.lbUpdate "weekly" env.weekStart uid u'.username u'.compute
  let r3 := env.lbUpdate "all-time" allTimeDate uid u'.username u'.computePower
  match r1, r2, r3 with
  | .ok _, .ok _, .ok _ => (.success u'.snapshot, s)
  | _, _, _ => (.serverError, s)

/-- The `tap` handler: user lookup by `telegramId`, cooldown guard, then
`tapPersist`. -/
def tap (env : TapEnv) (now : Nat) (s : Store) (telegramId : Nat) :
    TapResponse × Store :=
  match findUserByTelegramId s telegramId with
  | none => (.notFound, s)
  | some (uid, u) =>
    match u.cooldownEndTime with
    | some t =>
      if now < t then (.cooldown t, s)
      else tapPersist env now s uid u
    | none => tapPersist env now s uid u

/-! ## Boost (controller lines 497–539) -/

/-- Possible HTTP-level outcomes of `boost`. -/
inductive BoostResponse where
  | notFound
  | noBoostAvailable
  | success (u : User)
  deriving Repr, DecidableEq

/-- The in-memory mutation `boost` performs once its guard passes:
`boostDuration = 10 * 1000` ms, `tapsPerSecond = 10`,
`totalBoostTaps = tapsPerSecond * (boostDuration / 1000)`; consume one
boost, record `lastBoostTime`, add `totalBoostTaps` to `totalTaps`, add
`xpGained = totalBoostTaps * computePower` to `xp` and `compute`, and
reset `cooldownEndTime` to null. -/
def boostUser (now : Nat) (u : User) : User :=
  let boostDuration := 10 * 1000
  let tapsPerSecond := 10
  let totalBoostTaps := tapsPerSecond * (boostDuration / 1000)
  let xpGained := totalBoostTaps * u.computePower
  { u with
    boostCount := u.boostCount - 1
    lastBoostTime := some now
    totalTaps := u.totalTaps + totalBoostTaps
    xp := u.xp + xpGained
    compute := u.compute + xpGained
    cooldownEndTime := none }

/-- The `boost` handler: user lookup, the `boostCount < 1` guard, then
`boostUser` and save. -/
def boost (now : Nat) (s : Store) (telegramId : Nat) : BoostResponse × Store :=
  match findUserByTelegramId s telegramId with
  | none => (.notFound, s)
  | some (uid, u) =>
    if u.boostCount < 1 then (.noBoostAvailable, s)
    else
      let u' := boostUser now u
      (.success u', saveUser s uid u')

/-! ## Quest claiming (routes lines 57–94, verifier lines 122–157) -/

/-- JS truthiness of an optional string (`undefined`, `null` and `""` are
falsy). -/
def truthyStr : Option String → Bool
  | some s => s ≠ ""
  | none => false

/-- `verifyQuestCompletion(user, quest)`, dispatching on `quest.type`;
`checkMembership` stands for the external `verifyTelegramQuest`
collaborator.  A thrown error (`Missing data`, `Unknown quest type`) is
`Except.error`; `user.totalTaps >= quest.requirement` with `requirement`
undefined is false in JS, embedded as the `none` arm. -/
def verifyQuestCompletion (checkMembership : String → String → Nat → Bool)
    (u : User) (q : Quest) : Except String Bool :=
  match q.type with
  | "daily" => .ok true
  | "weekly" => .ok true
  | "twitter" => .ok true
  | "telegram" =>
    match q.action, q.targetId with
    | some a, some t =>
      if a ≠ "" ∧ t ≠ "" ∧ u.telegramId ≠ 0 then
        .ok (checkMembership a t u.telegramId)
      else .error "Missing data"
    | _, _ => .error "Missing data"
  | "discord" => .ok true
  | "tap" =>
    .ok (match q.requirement with
         | some r => decide (u.totalTaps ≥ r)
         | none => false)
  | "level" =>
    .ok (match q.requirement with
         | some r => decide (u.level ≥ r)
         | none => false)
  | "leaderboard" => .ok true
  | "referral" => .ok true
  | "achievement" => .ok true
  | _ => .error "Unknown quest type"

/-- Possible HTTP-level outcomes of `POST /claim/:questId`. -/
inductive ClaimResponse where
  | userNotFound
  | questNotFound
  | alreadyClaimed
  | notJoined
  | success (xp : Nat)
  | serverError
  deriving Repr, DecidableEq

/-- The `POST /claim/:questId` handler: user and quest lookup; reject
`alreadyClaimed` when `user.completedQuests.includes(questId)`; run the
verifier (a throw lands in the route's catch, `serverError`); reject
`notJoined` when `!verified && quest?.type == "telegram"`; otherwise
credit `quest.xpReward` to `xp`, push `questId` onto `completedQuests`,
and save. -/
def claimQuest (checkMembership : String → String → Nat → Bool)
    (s : Store) (telegramId questId : Nat) : ClaimResponse × Store :=
  match findUserByTelegramId s telegramId with
  | none => (.userNotFound, s)
  | some (uid, u) =>
    match findQuest s questId with
    | none => (.questNotFound, s)
    | some q =>
      if questId ∈ u.completedQuests then (.alreadyClaimed, s)
      else
        match verifyQuestCompletion checkMembership u q with
        | .error _ => (.serverError, s)
        | .ok verified =>
          if !verified && q.type == "telegram" then (.notJoined, s)
          else
            let u' := { u with
              xp := u.xp + q.xpReward
              completedQuests := u.completedQuests ++ [questId] }
            (.success u'.xp, saveUser s uid u')

/-! ## Helper lemmas -/

theorem tapUser_base (now : Nat) (u : User) :
    (tapUser now u).totalTaps = u.totalTaps + 1 ∧
    (tapUser now u).xp = u.xp + u.computePower ∧
    (tapUser now u).compute = u.compute + u.computePower ∧
    (tapUser now u).username = u.username ∧
    (tapUser now u).telegramId = u.telegramId ∧
    (tapUser now u).completedQuests = u.completedQuests := by
  simp only [tapUser]
  split <;> split <;> split <;> exact ⟨rfl, rfl, rfl, rfl, rfl, rfl⟩

theorem tapUser_cooldownEndTime (now : Nat) (u : User) :
    (tapUser now u).cooldownEndTime =
      if (u.totalTaps + 1) % 500 = 0 then some (now + 10 * 1000)
      else u.cooldownEndTime := by
  simp only [tapUser, beq_iff_eq]
  split <;> split <;> split <;> simp_all

theorem tapUser_gpu (now : Nat) (u : User) :
    (tapUser now u).gpuLevel =
      (if (u.gpuLevel + 1) * 25000 ≤ u.xp + u.computePower
        then u.gpuLevel + 1 else u.gpuLevel)
    ∧ (tapUser now u).computePower =
      (if (u.gpuLevel + 1) * 25000 ≤ u.xp + u.computePower
        then u.computePower + 1 else u.computePower) := by
  simp only [tapUser, beq_iff_eq]
  split <;> split <;> split <;> simp_all

theorem tapUser_boostCount (now : Nat) (u : User) :
    (tapUser now u).boostCount =
      if (u.xp + u.computePower) % 2000 = 0 then u.boostCount + 1
      else u.boostCount := by
  simp only [tapUser, beq_iff_eq]
  split <;> split <;> split <;> simp_all

theorem tapAttempt_success (t : Nat) (u u' : User)
    (h : tapAttempt t u = .success u') : u' = tapUser t u := by
  unfold tapAttempt at h
  split at h
  · split at h
    · cases h
    · injection h with h; exact h.symm
  · injection h with h; exact h.symm

theorem tapSeq_totalTaps : ∀ (ts : List Nat) (u w : User),
    tapSeq u ts = some w → w.totalTaps = u.totalTaps + ts.length := by
  intro ts
  induction ts with
  | nil =>
    intro u w h
    simp only [tapSeq, Option.some.injEq] at h
    subst h
    simp
  | cons t ts ih =>
    intro u w h
    unfold tapSeq at h
    cases hta : tapAttempt t u with
    | cooldown c => rw [hta] at h; cases h
    | success u' =>
      rw [hta] at h
      have he := tapAttempt_success t u u' hta
      subst he
      have h1 := ih (tapUser t u) w h
      have h2 := (tapUser_base t u).1
      simp only [List.length_cons]
      omega

theorem findUserByTelegramId_mem (s : Store) (tid uid : Nat) (u : User)
    (h : findUserByTelegramId s tid = some (uid, u)) :
    (uid, u) ∈ s.users ∧ u.telegramId = tid := by
  unfold findUserByTelegramId at h
  refine ⟨List.mem_of_find?_eq_some h, ?_⟩
  have := List.find?_some h
  simpa using this

theorem find?_map_save (l : List (Nat × User)) (uid : Nat) (u u' : User)
    (h : (uid, u) ∈ l) :
    ((l.map fun p => if p.1 == uid then (uid, u') else p).find?
        fun p => p.1 == uid) = some (uid, u') := by
  induction l with
  | nil => cases h
  | cons p l ih =>
    simp only [List.map_cons]
    by_cases hk : p.1 = uid
    · rw [if_pos (by simpa using hk), List.find?_cons_of_pos _ (by simp)]
    · rw [if_neg (by simpa using hk),
        List.find?_cons_of_neg _ (by simpa using hk)]
      rcases List.mem_cons.mp h with hp | hp
      · exact absurd (by rw [← hp]) hk
      · exact ih hp

theorem findUser_saveUser_self (s : Store) (uid : Nat) (u u' : User)
    (h : (uid, u) ∈ s.users) :
    findUser (saveUser s uid u') uid = some u' := by
  unfold findUser saveUser
  rw [find?_map_save s.users uid u u' h]
  rfl

theorem find?_map_save_tid (l : List (Nat × User)) (uid tid : Nat) (u u' : User)
    (hfind : (l.find? fun p => p.2.telegramId == tid) = some (uid, u))
    (htid : u'.telegramId = tid) :
    ((l.map fun p => if p.1 == uid then (uid, u') else p).find?
        fun p => p.2.telegramId == tid) = some (uid, u') := by
  induction l with
  | nil => simp at hfind
  | cons p l ih =>
    simp only [List.map_cons]
    by_cases hp : p.2.telegramId = tid
    · rw [List.find?_cons_of_pos _ (by simpa using hp)] at hfind
      have hpe : p = (uid, u) := by simpa using hfind
      subst hpe
      rw [if_pos (by simp), List.find?_cons_of_pos _ (by simpa using htid)]
    · rw [List.find?_cons_of_neg _ (by simpa using hp)] at hfind
      by_cases hk : p.1 = uid
      · rw [if_pos (by simpa using hk),
          List.find?_cons_of_pos _ (by simpa using htid)]
      · rw [if_neg (by simpa using hk),
          List.find?_cons_of_neg _ (by simpa using hp)]
        exact ih hfind

theorem findUserByTelegramId_saveUser (s : Store) (uid tid : Nat) (u u' : User)
    (hfind : findUserByTelegramId s tid = some (uid, u))
    (htid : u'.telegramId = u.telegramId) :
    findUserByTelegramId (saveUser s uid u') tid = some (uid, u') := by
  have htid' : u.telegramId = tid := (findUserByTelegramId_mem s tid uid u hfind).2
  unfold findUserByTelegramId at hfind ⊢
  exact find?_map_save_tid s.users uid tid u u' hfind (htid.trans htid')

theorem findQuest_saveUser (s : Store) (uid qid : Nat) (u' : User) :
    findQuest (saveUser s uid u') qid = findQuest s qid := rfl

/-- Referral propagation as shipped never changes the persisted store:
the very first loop iteration evaluates the unbound `Referral` and
throws before any `save`, and the catch only logs. -/
theorem distributeReferralXP_eq_self (s : Store) (userId xpGained : Nat) :
    distributeReferralXP s userId xpGained = s := by
  cases hu : findUser s userId with
  | none => simp [distributeReferralXP, hu]
  | some u =>
    cases hr : u.referredBy with
    | none => simp [distributeReferralXP, hu, hr]
    | some rid =>
      cases hv : findUser s rid with
      | none => simp [distributeReferralXP, hu, hr, hv]
      | some refUser =>
        simp only [distributeReferralXP, hu, hr, hv]
        rfl

theorem tapPersist_store (env : TapEnv) (now : Nat) (s : Store) (uid : Nat)
    (u : User) :
    (tapPersist env now s uid u).2 = saveUser s uid (tapUser now u) := by
  simp only [tapPersist, distributeReferralXP_eq_self]
  split <;> rfl

theorem tapPersist_response_ok (env : TapEnv) (now : Nat) (s : Store)
    (uid : Nat) (u : User)
    (h1 : env.lbUpdate "daily" env.todayStart uid (tapUser now u).username
        (tapUser now u).compute = .ok ())
    (h2 : env.lbUpdate "weekly" env.weekStart uid (tapUser now u).username
        (tapUser now u).compute = .ok ())
    (h3 : env.lbUpdate "all-time" allTimeDate uid (tapUser now u).username
        (tapUser now u).computePower = .ok ()) :
    (tapPersist env now s uid u).1 = .success (tapUser now u).snapshot := by
  simp only [tapPersist, distributeReferralXP_eq_self, h1, h2, h3]

theorem tapPersist_response_fail (env : TapEnv) (now : Nat) (s : Store)
    (uid : Nat) (u : User)
    (h : env.lbUpdate "daily" env.todayStart uid (tapUser now u).username
          (tapUser now u).compute = .error ()
       ∨ env.lbUpdate "weekly" env.weekStart uid (tapUser now u).username
          (tapUser now u).compute = .error ()
       ∨ env.lbUpdate "all-time" allTimeDate uid (tapUser now u).username
          (tapUser now u).computePower = .error ()) :
    (tapPersist env now s uid u).1 = .serverError := by
  simp only [tapPersist, distributeReferralXP_eq_self]
  split
  · rcases h with h | h | h <;> simp_all
  · rfl

theorem tap_eq_tapPersist (env : TapEnv) (now : Nat) (s : Store)
    (tid uid : Nat) (u : User)
    (hfind : findUserByTelegramId s tid = some (uid, u))
    (hcool : coolingDown now u = false) :
    tap env now s tid = tapPersist env now s uid u := by
  unfold coolingDown at hcool
  cases hct : u.cooldownEndTime with
  | none => simp [tap, hfind, hct]
  | some t =>
    rw [hct] at hcool
    simp only [decide_eq_false_iff_not] at hcool
    simp [tap, hfind, hct, hcool]

theorem tap_store (env : TapEnv) (now : Nat) (s : Store)
    (tid uid : Nat) (u : User)
    (hfind : findUserByTelegramId s tid = some (uid, u))
    (hcool : coolingDown now u = false) :
    (tap env now s tid).2 = saveUser s uid (tapUser now u) := by
  rw [tap_eq_tapPersist env now s tid uid u hfind hcool, tapPersist_store]

theorem findUser_after_tap (env : TapEnv) (now : Nat) (s : Store)
    (tid uid : Nat) (u : User)
    (hfind : findUserByTelegramId s tid = some (uid, u))
    (hcool : coolingDown now u = false) :
    findUser (tap env now s tid).2 uid = some (tapUser now u) := by
  rw [tap_store env now s tid uid u hfind hcool]
  exact findUser_saveUser_self s uid u (tapUser now u)
    (findUserByTelegramId_mem s tid uid u hfind).1

theorem claimQuest_already (cm : String → String → Nat → Bool) (s : Store)
    (tid qid uid : Nat) (u : User) (q : Quest)
    (hfind : findUserByTelegramId s tid = some (uid, u))
    (hq : findQuest s qid = some q)
    (hmem : qid ∈ u.completedQuests) :
    claimQuest cm s tid qid = (.alreadyClaimed, s) := by
  simp [claimQuest, hfind, hq, hmem]

theorem claimQuest_success_inv (cm : String → String → Nat → Bool)
    (s s' : Store) (tid qid uid x : Nat) (u : User) (q : Quest)
    (hfind : findUserByTelegramId s tid = some (uid, u))
    (hq : findQuest s qid = some q)
    (hsucc : claimQuest cm s tid qid = (.success x, s')) :
    x = u.xp + q.xpReward
    ∧ s' = saveUser s uid
        { u with xp := u.xp + q.xpReward,
                 completedQuests := u.completedQuests ++ [qid] }
    ∧ qid ∉ u.completedQuests := by
  by_cases hmem : qid ∈ u.completedQuests
  · rw [claimQuest_already cm s tid qid uid u q hfind hq hmem] at hsucc
    cases hsucc
  · cases hv : verifyQuestCompletion cm u q with
    | error e => simp [claimQuest, hfind, hq, hmem, hv] at hsucc
    | ok verified =>
      by_cases hnj : (!verified && q.type == "telegram") = true
      · simp [claimQuest, hfind, hq, hmem, hv, hnj] at hsucc
      · simp only [claimQuest, hfind, hq, hv] at hsucc
        rw [if_neg hmem, if_neg hnj] at hsucc
        rw [Prod.mk.injEq] at hsucc
        refine ⟨?_, hsucc.2.symm, hmem⟩
        injection hsucc.1 with h
        exact h.symm

/-! ## Concrete fixtures for the witnesses -/

/-- A fresh user with the counters a new document starts from. -/
def baseUser : User :=
  { telegramId := 0, username := "", xp := 0, compute := 0, totalTaps := 0,
    computePower := 1, gpuLevel := 0, cooldownEndTime := none,
    boostCount := 0, lastTapTime := none, lastBoostTime := none,
    completedQuests := [], referredBy := none, level := 0 }

def soloUser : User := { baseUser with telegramId := 7, username := "solo" }

def soloStore : Store := { users := [(1, soloUser)], referrals := [], quests := [] }

def coolUser : User :=
  { baseUser with telegramId := 8, cooldownEndTime := some 100 }

def coolStore : Store := { users := [(1, coolUser)], referrals := [], quests := [] }

def edgeUser : User := { baseUser with telegramId := 9, totalTaps := 499 }

def edgeStore : Store := { users := [(1, edgeUser)], referrals := [], quests := [] }

def levelUser : User := { baseUser with telegramId := 10, xp := 24999 }

def levelStore : Store :=
  { users := [(1, levelUser)], referrals := [], quests := [] }

def nearBoostUser : User := { baseUser with telegramId := 16, xp := 1999 }

def nearBoostStore : Store :=
  { users := [(1, nearBoostUser)], referrals := [], quests := [] }

def wideUser : User :=
  { baseUser with telegramId := 17, xp := 1999, computePower := 2 }

def wideStore : Store := { users := [(1, wideUser)], referrals := [], quests := [] }

def boostReadyUser : User :=
  { baseUser with
    telegramId := 15
    boostCount := 2
    cooldownEndTime := some 999999 }

def boostStore : Store :=
  { users := [(1, boostReadyUser)], referrals := [], quests := [] }

/-- An environment whose three leaderboard upserts all succeed. -/
def okEnv : TapEnv :=
  { lbUpdate := fun _ _ _ _ _ => .ok (), todayStart := 0, weekStart := 0 }

/-- An environment whose leaderboard upserts all fail (rejected promises). -/
def failEnv : TapEnv :=
  { lbUpdate := fun _ _ _ _ _ => .error (), todayStart := 0, weekStart := 0 }

/-- Four users in a referral chain: user 1 was referred by 2, 2 by 3,
3 by 4; the edges of the chain exist with zeroed counters. -/
def chainStore : Store :=
  { users := [
      (1, { baseUser with telegramId := 11, referredBy := some 2 }),
      (2, { baseUser with telegramId := 12, referredBy := some 3 }),
      (3, { baseUser with telegramId := 13, referredBy := some 4 }),
      (4, { baseUser with telegramId := 14 })],
    referrals := [((2, 1), 0), ((3, 2), 0), ((4, 3), 0)],
    quests := [] }

/-- A membership checker that always answers false. -/
def cmFalse : String → String → Nat → Bool := fun _ _ _ => false

def questUser : User := { baseUser with telegramId := 21, totalTaps := 5 }

def twitterQuest : Quest :=
  { title := "t", description := "d", xpReward := 40, type := "twitter",
    action := none, targetId := none, requirement := none, expiresAt := 0 }

def tapQuest : Quest :=
  { title := "tap100", description := "d", xpReward := 10, type := "tap",
    action := some "tap", targetId := none, requirement := some 100,
    expiresAt := 0 }

def tgQuest : Quest :=
  { title := "join", description := "d", xpReward := 15, type := "telegram",
    action := some "join", targetId := some "chan", requirement := none,
    expiresAt := 0 }

def questStore : Store :=
  { users := [(1, questUser)], referrals := [],
    quests := [(5, twitterQuest), (6, tapQuest), (7, tgQuest)] }

def questUserClaimed : User :=
  { questUser with
    xp := questUser.xp + 40
    completedQuests := questUser.completedQuests ++ [5] }

def questStoreClaimed : Store := saveUser questStore 1 questUserClaimed

/-! ## Claim theorems and witnesses -/

/-- C1: for every existing user whose cooldown is not active at tap time,
`tap` increments `totalTaps` by exactly 1 and adds `computePower` to both
`xp` and `compute`; hence after N successful taps (and no boosts)
`totalTaps` equals its initial value plus N. -/
theorem C1_tap_increments (env : TapEnv) (now : Nat) (s : Store)
    (tid uid : Nat) (u w : User) (ts : List Nat)
    (hfind : findUserByTelegramId s tid = some (uid, u))
    (hcool : coolingDown now u = false)
    (hseq : tapSeq u ts = some w) :
    findUser (tap env now s tid).2 uid = some (tapUser now u)
    ∧ (tapUser now u).totalTaps = u.totalTaps + 1
    ∧ (tapUser now u).xp = u.xp + u.computePower
    ∧ (tapUser now u).compute = u.compute + u.computePower
    ∧ w.totalTaps = u.totalTaps + ts.length := by
  obtain ⟨h1, h2, h3, -⟩ := tapUser_base now u
  exact ⟨findUser_after_tap env now s tid uid u hfind hcool, h1, h2, h3,
    tapSeq_totalTaps ts u w hseq⟩

theorem C1_witness :
    findUser (tap okEnv 0 soloStore 7).2 1 = some (tapUser 0 soloUser)
    ∧ (tapUser 0 soloUser).totalTaps = soloUser.totalTaps + 1
    ∧ (tapUser 0 soloUser).xp = soloUser.xp + soloUser.computePower
    ∧ (tapUser 0 soloUser).compute = soloUser.compute + soloUser.computePower
    ∧ (tapUser 2 (tapUser 1 (tapUser 0 soloUser))).totalTaps
        = soloUser.totalTaps + [0, 1, 2].length :=
  C1_tap_increments okEnv 0 soloStore 7 1 soloUser
    (tapUser 2 (tapUser 1 (tapUser 0 soloUser))) [0, 1, 2] rfl rfl rfl

/-- C2: a tap while `cooldownEndTime` is set and `now` is strictly before
it is rejected with the stored `cooldownEndTime` and mutates nothing. -/
theorem C2_cooldown_rejects (env : TapEnv) (now : Nat) (s : Store)
    (tid uid t : Nat) (u : User)
    (hfind : findUserByTelegramId s tid = some (uid, u))
    (hct : u.cooldownEndTime = some t)
    (hlt : now < t) :
    tap env now s tid = (.cooldown t, s) := by
  simp [tap, hfind, hct, hlt]

theorem C2_witness : tap okEnv 5 coolStore 8 = (.cooldown 100, coolStore) :=
  C2_cooldown_rejects okEnv 5 coolStore 8 1 100 coolUser rfl rfl (by decide)

/-- C3: a successful tap that brings `totalTaps` to a (necessarily
positive) multiple of 500 sets `cooldownEndTime` to the tap time plus 10
seconds; one whose resulting `totalTaps` is not a multiple of 500 leaves
`cooldownEndTime` unchanged.  Each successful tap moves `totalTaps` up by
exactly 1, so each multiple-of-500 crossing fires the trigger exactly
once. -/
theorem C3_cooldown_trigger (env : TapEnv) (now : Nat) (s : Store)
    (tid uid : Nat) (u : User)
    (hfind : findUserByTelegramId s tid = some (uid, u))
    (hcool : coolingDown now u = false) :
    findUser (tap env now s tid).2 uid = some (tapUser now u)
    ∧ (tapUser now u).totalTaps = u.totalTaps + 1
    ∧ ((u.totalTaps + 1) % 500 = 0 →
        0 < (tapUser now u).totalTaps
        ∧ (tapUser now u).cooldownEndTime = some (now + 10 * 1000))
    ∧ ((u.totalTaps + 1) % 500 ≠ 0 →
        (tapUser now u).cooldownEndTime = u.cooldownEndTime) := by
  refine ⟨findUser_after_tap env now s tid uid u hfind hcool,
    (tapUser_base now u).1, ?_, ?_⟩
  · intro h
    rw [tapUser_cooldownEndTime, if_pos h]
    exact ⟨by rw [(tapUser_base now u).1]; omega, rfl⟩
  · intro h
    rw [tapUser_cooldownEndTime, if_neg h]

theorem C3_witness :
    findUser (tap okEnv 0 edgeStore 9).2 1 = some (tapUser 0 edgeUser)
    ∧ (tapUser 0 edgeUser).totalTaps = edgeUser.totalTaps + 1
    ∧ 0 < (tapUser 0 edgeUser).totalTaps
    ∧ (tapUser 0 edgeUser).cooldownEndTime = some (0 + 10 * 1000) := by
  have h := C3_cooldown_trigger okEnv 0 edgeStore 9 1 edgeUser rfl rfl
  have h5 : (edgeUser.totalTaps + 1) % 500 = 0 := by decide
  exact ⟨h.1, h.2.1, (h.2.2.1 h5).1, (h.2.2.1 h5).2⟩

/-- C4: on a successful tap, when the post-increment `xp` reaches
`(gpuLevel + 1) * 25000`, `gpuLevel` and `computePower` each grow by
exactly 1 (the check runs once per tap, so no second cascaded level-up);
otherwise both are unchanged. -/
theorem C4_gpu_levelup (env : TapEnv) (now : Nat) (s : Store)
    (tid uid : Nat) (u : User)
    (hfind : findUserByTelegramId s tid = some (uid, u))
    (hcool : coolingDown now u = false) :
    findUser (tap env now s tid).2 uid = some (tapUser now u)
    ∧ (tapUser now u).xp = u.xp + u.computePower
    ∧ ((u.gpuLevel + 1) * 25000 ≤ u.xp + u.computePower →
        (tapUser now u).gpuLevel = u.gpuLevel + 1
        ∧ (tapUser now u).computePower = u.computePower + 1)
    ∧ (u.xp + u.computePower < (u.gpuLevel + 1) * 25000 →
        (tapUser now u).gpuLevel = u.gpuLevel
        ∧ (tapUser now u).computePower = u.computePower) := by
  obtain ⟨hg, hc⟩ := tapUser_gpu now u
  refine ⟨findUser_after_tap env now s tid uid u hfind hcool,
    (tapUser_base now u).2.1, ?_, ?_⟩
  · intro h
    rw [hg, hc, if_pos h, if_pos h]
    exact ⟨rfl, rfl⟩
  · intro h
    rw [hg, hc, if_neg (Nat.not_le.mpr h), if_neg (Nat.not_le.mpr h)]
    exact ⟨rfl, rfl⟩

theorem C4_witness :
    findUser (tap okEnv 0 levelStore 10).2 1 = some (tapUser 0 levelUser)
    ∧ (tapUser 0 levelUser).xp = 25000
    ∧ (tapUser 0 levelUser).gpuLevel = 1
    ∧ (tapUser 0 levelUser).computePower = 2 := by
  have h := C4_gpu_levelup okEnv 0 levelStore 10 1 levelUser rfl rfl
  have hcond : (levelUser.gpuLevel + 1) * 25000
      ≤ levelUser.xp + levelUser.computePower := by decide
  exact ⟨h.1, by rw [h.2.1]; rfl, (h.2.2.1 hcond).1, (h.2.2.1 hcond).2⟩

/-- C5: on a successful tap, `boostCount` grows by exactly 1 when the
post-tap `xp` is an exact multiple of 2000 and is unchanged otherwise;
crossing a 2000 boundary without landing on it exactly (the tap adds
`computePower`, not always 1) yields no boost. -/
theorem C5_boost_exact (env : TapEnv) (now : Nat) (s : Store)
    (tid uid : Nat) (u : User)
    (hfind : findUserByTelegramId s tid = some (uid, u))
    (hcool : coolingDown now u = false) :
    findUser (tap env now s tid).2 uid = some (tapUser now u)
    ∧ (tapUser now u).xp = u.xp + u.computePower
    ∧ ((u.xp + u.computePower) % 2000 = 0 →
        (tapUser now u).boostCount = u.boostCount + 1)
    ∧ ((u.xp + u.computePower) % 2000 ≠ 0 →
        (tapUser now u).boostCount = u.boostCount) := by
  refine ⟨findUser_after_tap env now s tid uid u hfind hcool,
    (tapUser_base now u).2.1, ?_, ?_⟩
  · intro h
    rw [tapUser_boostCount, if_pos h]
  · intro h
    rw [tapUser_boostCount, if_neg h]

theorem C5_witness :
    (tapUser 3 nearBoostUser).xp = 2000
    ∧ (tapUser 3 nearBoostUser).boostCount = nearBoostUser.boostCount + 1
    ∧ (tapUser 4 wideUser).xp = 2001
    ∧ (tapUser 4 wideUser).boostCount = wideUser.boostCount
    ∧ findUser (tap okEnv 3 nearBoostStore 16).2 1
        = some (tapUser 3 nearBoostUser) := by
  have h1 := C5_boost_exact okEnv 3 nearBoostStore 16 1 nearBoostUser rfl rfl
  have h2 := C5_boost_exact okEnv 4 wideStore 17 1 wideUser rfl rfl
  exact ⟨by rw [h1.2.1]; rfl, h1.2.2.1 (by decide), by rw [h2.2.1]; rfl,
    h2.2.2.2 (by decide), h1.1⟩

/-- C6: for every user with at least one boost, `boost` consumes exactly
one boost, adds 100 taps and `100 * computePower` to `xp` and `compute`,
clears `cooldownEndTime` unconditionally, records `lastBoostTime`, and
triggers neither the GPU level-up nor the xp-mod-2000 boost-count side
effect (`gpuLevel` and `computePower` are unchanged, `boostCount` moves
only down by 1). -/
theorem C6_boost_effects (now : Nat) (s : Store) (tid uid : Nat) (u : User)
    (hfind : findUserByTelegramId s tid = some (uid, u))
    (hbc : 1 ≤ u.boostCount) :
    boost now s tid
      = (.success (boostUser now u), saveUser s uid (boostUser now u))
    ∧ (boostUser now u).boostCount + 1 = u.boostCount
    ∧ (boostUser now u).totalTaps = u.totalTaps + 100
    ∧ (boostUser now u).xp = u.xp + 100 * u.computePower
    ∧ (boostUser now u).compute = u.compute + 100 * u.computePower
    ∧ (boostUser now u).cooldownEndTime = none
    ∧ (boostUser now u).lastBoostTime = some now
    ∧ (boostUser now u).gpuLevel = u.gpuLevel
    ∧ (boostUser now u).computePower = u.computePower := by
  refine ⟨?_, ?_, rfl, rfl, rfl, rfl, rfl, rfl, rfl⟩
  · have hnb : ¬u.boostCount < 1 := Nat.not_lt.mpr hbc
    simp [boost, hfind, hnb]
  · show u.boostCount - 1 + 1 = u.boostCount
    omega

theorem C6_witness :
    boost 50 boostStore 15
      = (.success (boostUser 50 boostReadyUser),
         saveUser boostStore 1 (boostUser 50 boostReadyUser))
    ∧ (boostUser 50 boostReadyUser).boostCount + 1
        = boostReadyUser.boostCount
    ∧ (boostUser 50 boostReadyUser).cooldownEndTime = none := by
  have h := C6_boost_effects 50 boostStore 15 1 boostReadyUser rfl (by decide)
  exact ⟨h.1, h.2.1, h.2.2.2.2.2.1⟩

/-- C7: `distributeReferralXP` as shipped distributes nothing.  On a
3-tier chain with `xpGained = 1000` the tier rewards are computed as
100, 50 and 25, but the very first loop iteration evaluates the unbound
identifier `Referral` and throws before any ancestor is saved; the catch
only logs, so the persisted store is returned unchanged and every
ancestor's `xp` stays 0 instead of gaining 100 / 50 / 25. -/
theorem C7_referral_distribution_lost :
    distributeReferralXP chainStore 1 1000 = chainStore
    ∧ (findUser (distributeReferralXP chainStore 1 1000) 2).map User.xp
        = some 0
    ∧ (findUser (distributeReferralXP chainStore 1 1000) 3).map User.xp
        = some 0
    ∧ (findUser (distributeReferralXP chainStore 1 1000) 4).map User.xp
        = some 0
    ∧ tierReward 1000 1 = 100
    ∧ tierReward 1000 2 = 50
    ∧ tierReward 1000 3 = 25 := by
  refine ⟨distributeReferralXP_eq_self chainStore 1 1000, ?_, ?_, ?_,
    rfl, rfl, rfl⟩ <;> rw [distributeReferralXP_eq_self] <;> rfl

/-- C8 counterexample: with all three leaderboard upserts rejecting, the
claim "tap still returns the successful user snapshot to its caller and
never surfaces the fan-out error" fails — the handler answers with the
generic 500 error instead of the snapshot (the user's persisted state was
nonetheless updated). -/
theorem C8_counterexample :
    (tap failEnv 0 soloStore 7).1 = .serverError
    ∧ (tap failEnv 0 soloStore 7).1 ≠ .success (tapUser 0 soloUser).snapshot
    ∧ (tap failEnv 0 soloStore 7).2 = saveUser soloStore 1 (tapUser 0 soloUser) := by
  refine ⟨?_, ?_, ?_⟩
  · rw [tap_eq_tapPersist failEnv 0 soloStore 7 1 soloUser rfl rfl]
    exact tapPersist_response_fail failEnv 0 soloStore 1 soloUser (Or.inl rfl)
  · rw [tap_eq_tapPersist failEnv 0 soloStore 7 1 soloUser rfl rfl,
      tapPersist_response_fail failEnv 0 soloStore 1 soloUser (Or.inl rfl)]
    exact fun h => TapResponse.noConfusion h
  · exact tap_store failEnv 0 soloStore 7 1 soloUser rfl rfl

/-- C8 amended: after the user-state update of a successful tap is
persisted, a failure inside the referral propagation is contained (the
fan-out leaves the persisted store exactly as saved and the handler still
answers with the snapshot when the leaderboard calls go through); a
failure inside any of the three `Leaderboard.updateEntry` calls, however,
escapes to `tap`'s outer catch-all: the persisted user update stands, but
the handler answers with a generic server error instead of the successful
snapshot. -/
theorem C8_fanout_containment (env : TapEnv) (now : Nat) (s : Store)
    (tid uid : Nat) (u : User)
    (hfind : findUserByTelegramId s tid = some (uid, u))
    (hcool : coolingDown now u = false) :
    (tap env now s tid).2 = saveUser s uid (tapUser now u)
    ∧ distributeReferralXP (saveUser s uid (tapUser now u)) uid u.computePower
        = saveUser s uid (tapUser now u)
    ∧ ((env.lbUpdate "daily" env.todayStart uid (tapUser now u).username
          (tapUser now u).compute = .ok ()
        ∧ env.lbUpdate "weekly" env.weekStart uid (tapUser now u).username
          (tapUser now u).compute = .ok ()
        ∧ env.lbUpdate "all-time" allTimeDate uid (tapUser now u).username
          (tapUser now u).computePower = .ok ()) →
        (tap env now s tid).1 = .success (tapUser now u).snapshot)
    ∧ ((env.lbUpdate "daily" env.todayStart uid (tapUser now u).username
          (tapUser now u).compute = .error ()
        ∨ env.lbUpdate "weekly" env.weekStart uid (tapUser now u).username
          (tapUser now u).compute = .error ()
        ∨ env.lbUpdate "all-time" allTimeDate uid (tapUser now u).username
          (tapUser now u).computePower = .error ()) →
        (tap env now s tid).1 = .serverError) := by
  refine ⟨tap_store env now s tid uid u hfind hcool,
    distributeReferralXP_eq_self _ _ _, ?_, ?_⟩
  · intro ⟨h1, h2, h3⟩
    rw [tap_eq_tapPersist env now s tid uid u hfind hcool]
    exact tapPersist_response_ok env now s uid u h1 h2 h3
  · intro h
    rw [tap_eq_tapPersist env now s tid uid u hfind hcool]
    exact tapPersist_response_fail env now s uid u h

theorem C8_witness :
    (tap okEnv 200 coolStore 8).2 = saveUser coolStore 1 (tapUser 200 coolUser)
    ∧ (tap okEnv 200 coolStore 8).1 = .success (tapUser 200 coolUser).snapshot
    ∧ (tap failEnv 200 coolStore 8).1 = .serverError := by
  have hok := C8_fanout_containment okEnv 200 coolStore 8 1 coolUser rfl rfl
  have hbad := C8_fanout_containment failEnv 200 coolStore 8 1 coolUser rfl rfl
  exact ⟨hok.1, hok.2.2.1 ⟨rfl, rfl, rfl⟩, hbad.2.2.2 (Or.inl rfl)⟩

/-- C9: a claim on a quest already in `completedQuests` answers
`alreadyClaimed` and changes nothing, so claiming the same quest twice
credits its `xpReward` exactly once: the successful first claim credits
`xpReward` and appends the quest, and the second claim on the resulting
store answers `alreadyClaimed` and leaves the store as it was. -/
theorem C9_claim_idempotent (cm : String → String → Nat → Bool)
    (s1 : Store) (tid1 qid1 uid1 : Nat) (u1 : User) (q1 : Quest)
    (hfind1 : findUserByTelegramId s1 tid1 = some (uid1, u1))
    (hq1 : findQuest s1 qid1 = some q1)
    (hmem1 : qid1 ∈ u1.completedQuests)
    (s0 s : Store) (tid qid uid x : Nat) (u0 : User) (q : Quest)
    (hfind0 : findUserByTelegramId s0 tid = some (uid, u0))
    (hq0 : findQuest s0 qid = some q)
    (hsucc : claimQuest cm s0 tid qid = (.success x, s)) :
    claimQuest cm s1 tid1 qid1 = (.alreadyClaimed, s1)
    ∧ x = u0.xp + q.xpReward
    ∧ findUserByTelegramId s tid = some (uid,
        { u0 with xp := u0.xp + q.xpReward,
                  completedQuests := u0.completedQuests ++ [qid] })
    ∧ claimQuest cm s tid qid = (.alreadyClaimed, s) := by
  obtain ⟨hx, hs, -⟩ :=
    claimQuest_success_inv cm s0 s tid qid uid x u0 q hfind0 hq0 hsucc
  have hfind' : findUserByTelegramId s tid = some (uid,
      { u0 with xp := u0.xp + q.xpReward,
                completedQuests := u0.completedQuests ++ [qid] }) := by
    rw [hs]
    exact findUserByTelegramId_saveUser s0 uid tid u0 _ hfind0 rfl
  refine ⟨claimQuest_already cm s1 tid1 qid1 uid1 u1 q1 hfind1 hq1 hmem1,
    hx, hfind', ?_⟩
  have hq' : findQuest s qid = some q := by
    rw [hs, findQuest_saveUser]
    exact hq0
  exact claimQuest_already cm s tid qid uid _ q hfind' hq'
    (List.mem_append_right _ (List.mem_singleton.mpr rfl))

theorem C9_witness :
    claimQuest cmFalse questStoreClaimed 21 5
        = (.alreadyClaimed, questStoreClaimed)
    ∧ 40 = questUser.xp + twitterQuest.xpReward
    ∧ findUserByTelegramId questStoreClaimed 21 = some (1, questUserClaimed)
    ∧ claimQuest cmFalse questStoreClaimed 21 5
        = (.alreadyClaimed, questStoreClaimed) := by
  have h := C9_claim_idempotent cmFalse
    questStoreClaimed 21 5 1 questUserClaimed twitterQuest rfl rfl
      (by decide)
    questStore questStoreClaimed 21 5 1 40 questUser twitterQuest rfl rfl rfl
  exact ⟨h.1, h.2.1, h.2.2.1, h.2.2.2⟩

/-- C10: for a quest whose type is not `telegram`, the claim handler
credits `xpReward` and appends the quest even when the verifier answers
false (e.g. a tap-type quest with `totalTaps` below the requirement);
only a false verifier on a telegram-type quest blocks the claim with the
distinguished not-joined response. -/
theorem C10_false_verifier_only_blocks_telegram
    (cm : String → String → Nat → Bool) (s : Store)
    (tid qid uid : Nat) (u : User) (q : Quest)
    (hfind : findUserByTelegramId s tid = some (uid, u))
    (hq : findQuest s qid = some q)
    (hmem : qid ∉ u.completedQuests)
    (hver : verifyQuestCompletion cm u q = .ok false) :
    (q.type ≠ "telegram" →
      claimQuest cm s tid qid =
        (.success (u.xp + q.xpReward),
         saveUser s uid
           { u with xp := u.xp + q.xpReward,
                    completedQuests := u.completedQuests ++ [qid] }))
    ∧ (q.type = "telegram" →
        claimQuest cm s tid qid = (.notJoined, s)) := by
  constructor
  · intro hnt
    have hb : (!false && q.type == "telegram") = false := by
      simp [hnt]
    simp only [claimQuest, hfind, hq, hver]
    rw [if_neg hmem, hb]
    rfl
  · intro ht
    have hb : (!false && q.type == "telegram") = true := by
      simp [ht]
    simp only [claimQuest, hfind, hq, hver]
    rw [if_neg hmem, hb]
    rfl

theorem C10_witness :
    claimQuest cmFalse questStore 21 6
      = (.success (questUser.xp + tapQuest.xpReward),
         saveUser questStore 1
           { questUser with
             xp := questUser.xp + tapQuest.xpReward
             completedQuests := questUser.completedQuests ++ [6] })
    ∧ verifyQuestCompletion cmFalse questUser tapQuest = .ok false
    ∧ questUser.totalTaps < 100
    ∧ claimQuest cmFalse questStore 21 7 = (.notJoined, questStore) := by
  have h1 := C10_false_verifier_only_blocks_telegram cmFalse questStore
    21 6 1 questUser tapQuest rfl rfl (by decide) rfl
  have h2 := C10_false_verifier_only_blocks_telegram cmFalse questStore
    21 7 1 questUser tgQuest rfl rfl (by decide) rfl
  exact ⟨h1.1 (by decide), rfl, by decide, h2.2 rfl⟩

end Microapp
